import Mathlib

/-!
Verification of the Home Energy Efficiency Analyzer canister
(`src/index.ts`).

The program is a single-threaded record store: a `StableBTreeMap` from
string ids to `EnergyAssessment` records, with CRUD operations plus an
embedded append-only usage history.  We embed it shallowly:

* `nat64` timestamps become `Nat`; the TypeScript `number` fields
  (`efficiencyRating`, `costSavings`, `consumption`, thresholds) become
  `Int` with exact arithmetic; `Principal` becomes an opaque `Nat`.
* The `StableBTreeMap` becomes an association list sorted by key in
  ascending string order (matching the BTree's `values()` order);
  `insert` is insert-or-replace, `remove` deletes the key, `get` is
  point lookup.
* The ambient effects `ic.time()`, `ic.caller()` and `uuidv4()` become
  explicit parameters (`now`, `caller`, `newId`).  On the Internet
  Computer `ic.time()` is constant within one message, so the two calls
  in `createEnergyAssessment` both yield the single parameter `now`.
* `Result<T, string>` becomes `Except String T`; mutating operations
  return the result paired with the post-state of the store.
* TypeScript truthiness checks `!payload.address` and `!id` test for the
  empty string (the Candid type guarantees a string is present), and
  `payload.recommendations || ""` is the empty-string default.
-/

namespace HomeEnergy

/-- One usage reading: `{ date: nat64; consumption: number }`. -/
structure EnergyUsageData where
  date : Nat
  consumption : Int
deriving Repr, DecidableEq

/-- The root record type `EnergyAssessment` from the source. -/
structure EnergyAssessment where
  id : String
  homeOwner : Nat
  address : String
  assessmentDate : Nat
  efficiencyRating : Int
  recommendations : String
  costSavings : Int
  createdAt : Nat
  updatedAt : Option Nat
  energyUsageHistory : List EnergyUsageData
deriving Repr, DecidableEq

/-- The caller-supplied payload `EnergyAssessmentPayload`. -/
structure EnergyAssessmentPayload where
  address : String
  efficiencyRating : Int
  recommendations : String
  costSavings : Int
deriving Repr, DecidableEq

/-- The `StableBTreeMap<string, EnergyAssessment>`: an association list
kept sorted by key in ascending string order. -/
abbrev Store := List (String × EnergyAssessment)

/-- Lexicographic order on code-point sequences, used for the ascending
key order of the `StableBTreeMap`. -/
def keyLt : List Nat → List Nat → Bool
  | [], [] => false
  | [], _ :: _ => true
  | _ :: _, [] => false
  | a :: as, b :: bs =>
    if a < b then true else if b < a then false else keyLt as bs

/-- Ascending string order by code points. -/
def strLt (a b : String) : Bool :=
  keyLt (a.data.map Char.toNat) (b.data.map Char.toNat)

/-- `energyAssessmentStorage.get(id)`: point lookup. -/
def Store.get : Store → String → Option EnergyAssessment
  | [], _ => none
  | (k', v) :: rest, k => if k = k' then some v else Store.get rest k

/-- `energyAssessmentStorage.insert(id, a)`: insert-or-replace, keeping
the keys in ascending order. -/
def Store.insert : Store → String → EnergyAssessment → Store
  | [], k, v => [(k, v)]
  | (k', v') :: rest, k, v =>
    if k = k' then (k, v) :: rest
    else if strLt k k' then (k, v) :: (k', v') :: rest
    else (k', v') :: Store.insert rest k v

/-- `energyAssessmentStorage.remove(id)`: delete the key. -/
def Store.remove : Store → String → Store
  | [], _ => []
  | (k', v') :: rest, k =>
    if k = k' then Store.remove rest k else (k', v') :: Store.remove rest k

/-- `energyAssessmentStorage.values()`: all records in key order. -/
def Store.values (s : Store) : List EnergyAssessment :=
  s.map Prod.snd

/-- `createEnergyAssessment(payload)` (index.ts:49-76).  Validates the
payload, builds the record with fresh id `newId`, timestamps `now` and
caller `caller`, and inserts it. -/
def createEnergyAssessment (newId : String) (now : Nat) (caller : Nat)
    (payload : EnergyAssessmentPayload) (store : Store) :
    Except String EnergyAssessment × Store :=
  if payload.address = "" ∨ payload.efficiencyRating ≤ 0 ∨ payload.costSavings ≤ 0 then
    (Except.error "Missing or invalid fields in the payload.", store)
  else
    let assessment : EnergyAssessment :=
      { id := newId
        createdAt := now
        updatedAt := none
        homeOwner := caller
        assessmentDate := now
        energyUsageHistory := []
        address := payload.address
        efficiencyRating := payload.efficiencyRating
        recommendations := if payload.recommendations = "" then "" else payload.recommendations
        costSavings := payload.costSavings }
    (Except.ok assessment, Store.insert store assessment.id assessment)

/-- `getEnergyAssessment(id)` (index.ts:80-90). -/
def getEnergyAssessment (id : String) (store : Store) :
    Except String EnergyAssessment :=
  if id = "" then Except.error "Invalid ID format."
  else
    match Store.get store id with
    | some assessment => Except.ok assessment
    | none => Except.error ("Energy Assessment with ID=" ++ id ++ " not found.")

/-- `getAllEnergyAssessments()` (index.ts:94-96). -/
def getAllEnergyAssessments (store : Store) :
    Except String (List EnergyAssessment) :=
  Except.ok (Store.values store)

/-- `updateEnergyAssessment(id, payload)` (index.ts:100-125).  Spread
merge: the payload fields overwrite `address`, `efficiencyRating`,
`recommendations`, `costSavings`; `updatedAt` is restamped with `now`;
everything else is carried over from the existing record. -/
def updateEnergyAssessment (id : String) (payload : EnergyAssessmentPayload)
    (now : Nat) (store : Store) : Except String EnergyAssessment × Store :=
  if id = "" then (Except.error "ID is required.", store)
  else
    match Store.get store id with
    | some existingAssessment =>
        let updatedAssessment : EnergyAssessment :=
          { existingAssessment with
            address := payload.address
            efficiencyRating := payload.efficiencyRating
            recommendations := payload.recommendations
            costSavings := payload.costSavings
            updatedAt := some now }
        (Except.ok updatedAssessment,
         Store.insert store updatedAssessment.id updatedAssessment)
    | none =>
        (Except.error ("Energy Assessment with ID=" ++ id ++ " not found."), store)

/-- `deleteEnergyAssessment(id)` (index.ts:129-142). -/
def deleteEnergyAssessment (id : String) (store : Store) :
    Except String EnergyAssessment × Store :=
  if id = "" then (Except.error "ID is required.", store)
  else
    match Store.get store id with
    | some existingAssessment =>
        (Except.ok existingAssessment, Store.remove store id)
    | none =>
        (Except.error ("Energy Assessment with ID=" ++ id ++ " not found."), store)

/-- `addEnergyUsage(id, date, consumption)` (index.ts:146-160): pushes a
reading onto the record's history and re-inserts it under `id`. -/
def addEnergyUsage (id : String) (date : Nat) (consumption : Int)
    (store : Store) : Except String EnergyAssessment × Store :=
  if id = "" then (Except.error "ID is required.", store)
  else
    match Store.get store id with
    | some assessment =>
        let updated : EnergyAssessment :=
          { assessment with
            energyUsageHistory :=
              assessment.energyUsageHistory ++ [⟨date, consumption⟩] }
        (Except.ok updated, Store.insert store id updated)
    | none =>
        (Except.error ("Energy Assessment with ID=" ++ id ++ " not found."), store)

/-- `getEnergyUsageHistory(id)` (index.ts:164-174). -/
def getEnergyUsageHistory (id : String) (store : Store) :
    Except String (List EnergyUsageData) :=
  if id = "" then Except.error "Invalid ID format."
  else
    match Store.get store id with
    | some assessment => Except.ok assessment.energyUsageHistory
    | none => Except.error ("Energy Assessment with ID=" ++ id ++ " not found.")

/-- `calculateTotalConsumption(id)` (index.ts:178-191): a left fold
`reduce((total, data) => total + data.consumption, 0)`. -/
def calculateTotalConsumption (id : String) (store : Store) :
    Except String Int :=
  if id = "" then Except.error "Invalid ID format."
  else
    match Store.get store id with
    | some assessment =>
        Except.ok (assessment.energyUsageHistory.foldl
          (fun total data => total + data.consumption) 0)
    | none => Except.error ("Energy Assessment with ID=" ++ id ++ " not found.")

/-- `getHighEfficiencyAssessments(threshold)` (index.ts:195-206). -/
def getHighEfficiencyAssessments (threshold : Int) (store : Store) :
    Except String (List EnergyAssessment) :=
  if threshold ≤ 0 then
    Except.error "Invalid threshold value. Threshold must be greater than 0."
  else
    Except.ok ((Store.values store).filter
      (fun assessment => decide (threshold ≤ assessment.efficiencyRating)))

/-- A sequence of `addEnergyUsage` calls on one id, in call order,
threading the store. -/
def applyUsages (id : String) (rs : List EnergyUsageData) (s : Store) : Store :=
  rs.foldl (fun st r => (addEnergyUsage id r.date r.consumption st).2) s

/-- Sample record used to instantiate the witness theorems.  Matches the
record of example scenario 1 of the design document. -/
def sampleAssessment : EnergyAssessment :=
  { id := "id-1"
    homeOwner := 7
    address := "1 Main St"
    assessmentDate := 5
    efficiencyRating := 5
    recommendations := "seal windows"
    costSavings := 200
    createdAt := 5
    updatedAt := none
    energyUsageHistory := [] }

/-- A one-record store holding `sampleAssessment` under its id. -/
def sampleStore : Store := [("id-1", sampleAssessment)]

/-- Sample payload with all creation preconditions satisfied. -/
def samplePayload : EnergyAssessmentPayload :=
  { address := "2 Main St"
    efficiencyRating := 9
    recommendations := ""
    costSavings := 300 }

/-- Sample record with a non-empty usage history (example scenario 3 of
the design document: readings (100, 30) and (200, 10)). -/
def sampleAssessment2 : EnergyAssessment :=
  { sampleAssessment with
    id := "id-2"
    energyUsageHistory := [⟨100, 30⟩, ⟨200, 10⟩] }

/-- A one-record store holding `sampleAssessment2` under its id. -/
def sampleStore2 : Store := [("id-2", sampleAssessment2)]

/-- The record literal built by the success path of
`createEnergyAssessment` (index.ts:56-67). -/
def newAssessment (newId : String) (now caller : Nat)
    (payload : EnergyAssessmentPayload) : EnergyAssessment :=
  { id := newId
    createdAt := now
    updatedAt := none
    homeOwner := caller
    assessmentDate := now
    energyUsageHistory := []
    address := payload.address
    efficiencyRating := payload.efficiencyRating
    recommendations := if payload.recommendations = "" then "" else payload.recommendations
    costSavings := payload.costSavings }

/- ## Store lemmas -/

theorem Store.get_insert_self (s : Store) (k : String) (v : EnergyAssessment) :
    Store.get (Store.insert s k v) k = some v := by
  induction s with
  | nil => simp [Store.insert, Store.get]
  | cons p rest ih =>
      obtain ⟨k', v'⟩ := p
      by_cases h1 : k = k'
      · simp [Store.insert, h1, Store.get]
      · by_cases h2 : strLt k k' = true <;>
          simp [Store.insert, h1, h2, Store.get, ih]

theorem Store.get_remove_self (s : Store) (k : String) :
    Store.get (Store.remove s k) k = none := by
  induction s with
  | nil => rfl
  | cons p rest ih =>
      obtain ⟨k', v'⟩ := p
      by_cases h : k = k'
      · subst h
        simpa [Store.remove] using ih
      · simp [Store.remove, Store.get, h, ih]

/- ## Helper lemmas about the operations -/

/-- A left fold adding consumptions equals the accumulator plus the sum
of the mapped consumptions. -/
theorem foldl_consumption (l : List EnergyUsageData) (acc : Int) :
    l.foldl (fun total data => total + data.consumption) acc
      = acc + (l.map EnergyUsageData.consumption).sum := by
  induction l generalizing acc with
  | nil => simp
  | cons x xs ih => simp [ih, add_assoc]

/-- On a store containing `a` under a non-empty `id`, `addEnergyUsage`
returns the record with the reading appended and stores it under `id`. -/
theorem addEnergyUsage_step (id : String) (d : Nat) (c : Int) (s : Store)
    (a : EnergyAssessment) (hid : id ≠ "") (h : Store.get s id = some a) :
    addEnergyUsage id d c s =
      (Except.ok { a with energyUsageHistory := a.energyUsageHistory ++ [⟨d, c⟩] },
       Store.insert s id
         { a with energyUsageHistory := a.energyUsageHistory ++ [⟨d, c⟩] }) := by
  simp [addEnergyUsage, hid, h]

/-- On a store containing `old` under a non-empty `id` equal to
`old.id`, `updateEnergyAssessment` returns the spread-merged record and
stores it under `id`. -/
theorem updateEnergyAssessment_step (id : String)
    (payload : EnergyAssessmentPayload) (now : Nat) (s : Store)
    (old : EnergyAssessment) (hid : id ≠ "")
    (h : Store.get s id = some old) (hkey : old.id = id) :
    updateEnergyAssessment id payload now s =
      (Except.ok
        { old with
          address := payload.address
          efficiencyRating := payload.efficiencyRating
          recommendations := payload.recommendations
          costSavings := payload.costSavings
          updatedAt := some now },
       Store.insert s id
        { old with
          address := payload.address
          efficiencyRating := payload.efficiencyRating
          recommendations := payload.recommendations
          costSavings := payload.costSavings
          updatedAt := some now }) := by
  simp only [updateEnergyAssessment, if_neg hid, h]
  rw [show ({ old with
        address := payload.address
        efficiencyRating := payload.efficiencyRating
        recommendations := payload.recommendations
        costSavings := payload.costSavings
        updatedAt := some now } : EnergyAssessment).id = id from hkey]

/-- Success-path equation for `createEnergyAssessment`. -/
theorem createEnergyAssessment_ok (newId : String) (now caller : Nat)
    (payload : EnergyAssessmentPayload) (s : Store)
    (hcond : ¬(payload.address = "" ∨ payload.efficiencyRating ≤ 0 ∨
      payload.costSavings ≤ 0)) :
    createEnergyAssessment newId now caller payload s =
      (Except.ok (newAssessment newId now caller payload),
       Store.insert s newId (newAssessment newId now caller payload)) := by
  simp only [createEnergyAssessment, if_neg hcond, newAssessment]

/- ## Claim theorems -/

/-- C1: for every payload satisfying the creation preconditions
(non-empty address, positive efficiencyRating and costSavings) and a
fresh non-empty id, `createEnergyAssessment` followed by
`getEnergyAssessment` on the returned record's id returns a record equal
to the one `createEnergyAssessment` returned. -/
theorem create_then_get (newId : String) (now caller : Nat)
    (payload : EnergyAssessmentPayload) (s : Store)
    (hnid : newId ≠ "") (haddr : payload.address ≠ "")
    (heff : 0 < payload.efficiencyRating) (hcost : 0 < payload.costSavings) :
    ∃ r s',
      createEnergyAssessment newId now caller payload s = (Except.ok r, s') ∧
      getEnergyAssessment r.id s' = Except.ok r := by
  have hcond : ¬(payload.address = "" ∨ payload.efficiencyRating ≤ 0 ∨
      payload.costSavings ≤ 0) := by
    push_neg
    exact ⟨haddr, heff, hcost⟩
  refine ⟨newAssessment newId now caller payload,
    Store.insert s newId (newAssessment newId now caller payload),
    createEnergyAssessment_ok newId now caller payload s hcond, ?_⟩
  have hrid : (newAssessment newId now caller payload).id = newId := rfl
  rw [hrid]
  simp [getEnergyAssessment, hnid, Store.get_insert_self]

/-- Witness for C1 at a concrete payload and empty store. -/
theorem create_then_get_witness :
    ∃ r s',
      createEnergyAssessment "id-1" 5 7 samplePayload [] = (Except.ok r, s') ∧
      getEnergyAssessment r.id s' = Except.ok r :=
  create_then_get "id-1" 5 7 samplePayload [] (by decide) (by decide)
    (by decide) (by decide)

/-- C3: for every payload with empty address, or non-positive
efficiencyRating or costSavings, `createEnergyAssessment` returns an
error result and leaves the store exactly as it was. -/
theorem create_invalid_payload (newId : String) (now caller : Nat)
    (payload : EnergyAssessmentPayload) (s : Store)
    (h : payload.address = "" ∨ payload.efficiencyRating ≤ 0 ∨
      payload.costSavings ≤ 0) :
    createEnergyAssessment newId now caller payload s =
      (Except.error "Missing or invalid fields in the payload.", s) := by
  simp only [createEnergyAssessment, if_pos h]

/-- Witness for C3: empty address, otherwise valid payload, non-empty
store; the store is returned unchanged. -/
theorem create_invalid_payload_witness :
    createEnergyAssessment "id-2" 9 7
        { address := "", efficiencyRating := 5,
          recommendations := "", costSavings := 200 } sampleStore =
      (Except.error "Missing or invalid fields in the payload.", sampleStore) :=
  create_invalid_payload "id-2" 9 7
    { address := "", efficiencyRating := 5,
      recommendations := "", costSavings := 200 } sampleStore (Or.inl rfl)

/-- C8: every record returned by a successful `createEnergyAssessment`
has `createdAt = assessmentDate = now`, `updatedAt` absent, `homeOwner`
equal to the caller, and an empty usage history. -/
theorem create_stamps (newId : String) (now caller : Nat)
    (payload : EnergyAssessmentPayload) (s : Store)
    (haddr : payload.address ≠ "") (heff : 0 < payload.efficiencyRating)
    (hcost : 0 < payload.costSavings) :
    ∃ r s',
      createEnergyAssessment newId now caller payload s = (Except.ok r, s') ∧
      r.createdAt = now ∧ r.assessmentDate = now ∧
      r.createdAt = r.assessmentDate ∧ r.updatedAt = none ∧
      r.homeOwner = caller ∧ r.energyUsageHistory = [] := by
  have hcond : ¬(payload.address = "" ∨ payload.efficiencyRating ≤ 0 ∨
      payload.costSavings ≤ 0) := by
    push_neg
    exact ⟨haddr, heff, hcost⟩
  exact ⟨newAssessment newId now caller payload,
    Store.insert s newId (newAssessment newId now caller payload),
    createEnergyAssessment_ok newId now caller payload s hcond,
    rfl, rfl, rfl, rfl, rfl, rfl⟩

/-- Witness for C8 at a concrete payload and the sample store. -/
theorem create_stamps_witness :
    ∃ r s',
      createEnergyAssessment "id-2" 9 7 samplePayload sampleStore =
        (Except.ok r, s') ∧
      r.createdAt = 9 ∧ r.assessmentDate = 9 ∧
      r.createdAt = r.assessmentDate ∧ r.updatedAt = none ∧
      r.homeOwner = 7 ∧ r.energyUsageHistory = [] :=
  create_stamps "id-2" 9 7 samplePayload sampleStore (by decide) (by decide)
    (by decide)

/-- C2: for every existing record (stored under its own non-empty id),
`updateEnergyAssessment` returns and stores a record that keeps `id`,
`homeOwner`, `createdAt` and `energyUsageHistory` from the prior record,
takes `address`, `efficiencyRating`, `recommendations` and `costSavings`
from the payload, and stamps `updatedAt` with the current logical time,
which under clock monotonicity is ≥ the previous `updatedAt`/`createdAt`. -/
theorem update_preserves_and_merges (id : String)
    (payload : EnergyAssessmentPayload) (now : Nat) (s : Store)
    (old : EnergyAssessment) (hid : id ≠ "")
    (h : Store.get s id = some old) (hkey : old.id = id)
    (hc : old.createdAt ≤ now) (hu : ∀ u, old.updatedAt = some u → u ≤ now) :
    ∃ r,
      updateEnergyAssessment id payload now s =
        (Except.ok r, Store.insert s id r) ∧
      Store.get (Store.insert s id r) id = some r ∧
      r.id = old.id ∧ r.homeOwner = old.homeOwner ∧
      r.createdAt = old.createdAt ∧
      r.energyUsageHistory = old.energyUsageHistory ∧
      r.address = payload.address ∧
      r.efficiencyRating = payload.efficiencyRating ∧
      r.recommendations = payload.recommendations ∧
      r.costSavings = payload.costSavings ∧
      r.updatedAt = some now ∧
      (∀ u, r.updatedAt = some u →
        old.createdAt ≤ u ∧ ∀ v, old.updatedAt = some v → v ≤ u) := by
  refine ⟨_, updateEnergyAssessment_step id payload now s old hid h hkey,
    Store.get_insert_self s id _, rfl, rfl, rfl, rfl, rfl, rfl, rfl, rfl,
    rfl, ?_⟩
  intro u hu2
  have hun : some now = some u := hu2
  have hthis : u = now := by
    injection hun with h3
    exact h3.symm
  subst hthis
  exact ⟨hc, fun v hv => hu v hv⟩

/-- Witness for C2: update the sample record at time 9. -/
theorem update_preserves_and_merges_witness :
    ∃ r,
      updateEnergyAssessment "id-1" samplePayload 9 sampleStore =
        (Except.ok r, Store.insert sampleStore "id-1" r) ∧
      Store.get (Store.insert sampleStore "id-1" r) "id-1" = some r ∧
      r.id = sampleAssessment.id ∧ r.homeOwner = sampleAssessment.homeOwner ∧
      r.createdAt = sampleAssessment.createdAt ∧
      r.energyUsageHistory = sampleAssessment.energyUsageHistory ∧
      r.address = samplePayload.address ∧
      r.efficiencyRating = samplePayload.efficiencyRating ∧
      r.recommendations = samplePayload.recommendations ∧
      r.costSavings = samplePayload.costSavings ∧
      r.updatedAt = some 9 ∧
      (∀ u, r.updatedAt = some u →
        sampleAssessment.createdAt ≤ u ∧
        ∀ v, sampleAssessment.updatedAt = some v → v ≤ u) :=
  update_preserves_and_merges "id-1" samplePayload 9 sampleStore
    sampleAssessment (by decide) (by decide) (by decide) (by decide)
    (by intro u hu; simp [sampleAssessment] at hu)

/-- C9: `updateEnergyAssessment` does not re-validate payload fields:
for every existing record and every payload, including invalid ones, the
update succeeds and stores the merged record. -/
theorem update_no_revalidation (id : String)
    (payload : EnergyAssessmentPayload) (now : Nat) (s : Store)
    (old : EnergyAssessment) (hid : id ≠ "")
    (h : Store.get s id = some old) (hkey : old.id = id) :
    ∃ r,
      updateEnergyAssessment id payload now s =
        (Except.ok r, Store.insert s id r) ∧
      r.address = payload.address ∧
      r.efficiencyRating = payload.efficiencyRating ∧
      r.recommendations = payload.recommendations ∧
      r.costSavings = payload.costSavings :=
  ⟨_, updateEnergyAssessment_step id payload now s old hid h hkey,
    rfl, rfl, rfl, rfl⟩

/-- Witness for C9: an update with empty address and non-positive
numeric fields still succeeds. -/
theorem update_no_revalidation_witness :
    ∃ r,
      updateEnergyAssessment "id-1"
          { address := "", efficiencyRating := -3,
            recommendations := "", costSavings := 0 } 9 sampleStore =
        (Except.ok r, Store.insert sampleStore "id-1" r) ∧
      r.address = "" ∧ r.efficiencyRating = -3 ∧
      r.recommendations = "" ∧ r.costSavings = 0 :=
  update_no_revalidation "id-1"
    { address := "", efficiencyRating := -3,
      recommendations := "", costSavings := 0 } 9 sampleStore
    sampleAssessment (by decide) (by decide) (by decide)

/-- C4: for every threshold t > 0, `getHighEfficiencyAssessments`
returns exactly the subsequence, in store order, of the stored records
whose efficiencyRating is ≥ t; for t ≤ 0 it returns a validation
error. -/
theorem highEfficiency_spec (t : Int) (s : Store) :
    (0 < t → ∃ l,
      getHighEfficiencyAssessments t s = Except.ok l ∧
      l.Sublist (Store.values s) ∧
      ∀ a, a ∈ l ↔ a ∈ Store.values s ∧ t ≤ a.efficiencyRating) ∧
    (t ≤ 0 → getHighEfficiencyAssessments t s =
      Except.error "Invalid threshold value. Threshold must be greater than 0.") := by
  constructor
  · intro ht
    have hnle : ¬ t ≤ 0 := not_le.mpr ht
    refine ⟨(Store.values s).filter
      (fun assessment => decide (t ≤ assessment.efficiencyRating)),
      ?_, ?_, ?_⟩
    · simp only [getHighEfficiencyAssessments, if_neg hnle]
    · exact List.filter_sublist _
    · intro a
      simp [List.mem_filter]
  · intro ht
    simp only [getHighEfficiencyAssessments, if_pos ht]

/-- Witness for C4: threshold 1 on the sample store, and the invalid
threshold -1. -/
theorem highEfficiency_spec_witness :
    (∃ l,
      getHighEfficiencyAssessments 1 sampleStore = Except.ok l ∧
      l.Sublist (Store.values sampleStore) ∧
      ∀ a, a ∈ l ↔ a ∈ Store.values sampleStore ∧ 1 ≤ a.efficiencyRating) ∧
    getHighEfficiencyAssessments (-1) sampleStore =
      Except.error "Invalid threshold value. Threshold must be greater than 0." :=
  ⟨(highEfficiency_spec 1 sampleStore).1 (by decide),
   (highEfficiency_spec (-1) sampleStore).2 (by decide)⟩

/-- C5: for every existing record, `calculateTotalConsumption` returns
the sum of the consumption values over its usage history, and in
particular 0 when the history is empty. -/
theorem totalConsumption_spec (id : String) (s : Store)
    (a : EnergyAssessment) (hid : id ≠ "") (h : Store.get s id = some a) :
    calculateTotalConsumption id s =
      Except.ok ((a.energyUsageHistory.map EnergyUsageData.consumption).sum) ∧
    (a.energyUsageHistory = [] →
      calculateTotalConsumption id s = Except.ok 0) := by
  constructor
  · simp [calculateTotalConsumption, hid, h, foldl_consumption]
  · intro he
    simp [calculateTotalConsumption, hid, h, he]

/-- Witness for C5: the sample record with readings (100, 30) and
(200, 10). -/
theorem totalConsumption_spec_witness :
    calculateTotalConsumption "id-2" sampleStore2 =
      Except.ok ((sampleAssessment2.energyUsageHistory.map
        EnergyUsageData.consumption).sum) ∧
    (sampleAssessment2.energyUsageHistory = [] →
      calculateTotalConsumption "id-2" sampleStore2 = Except.ok 0) :=
  totalConsumption_spec "id-2" sampleStore2 sampleAssessment2 (by decide)
    (by decide)

/-- C7: for every non-empty id, deleting an existing record returns
that record and removes it, so a subsequent lookup reports not-found;
deleting a missing id reports not-found and leaves the store
unchanged. -/
theorem delete_spec (id : String) (s : Store) (hid : id ≠ "") :
    (∀ a, Store.get s id = some a →
      deleteEnergyAssessment id s = (Except.ok a, Store.remove s id) ∧
      getEnergyAssessment id (Store.remove s id) =
        Except.error ("Energy Assessment with ID=" ++ id ++ " not found.")) ∧
    (Store.get s id = none →
      deleteEnergyAssessment id s =
        (Except.error ("Energy Assessment with ID=" ++ id ++ " not found."), s)) := by
  refine ⟨fun a ha => ⟨?_, ?_⟩, fun hn => ?_⟩
  · simp [deleteEnergyAssessment, hid, ha]
  · simp [getEnergyAssessment, hid, Store.get_remove_self]
  · simp [deleteEnergyAssessment, hid, hn]

/-- Witness for C7: delete the present id "id-1" and the absent id
"id-x" of the sample store. -/
theorem delete_spec_witness :
    (deleteEnergyAssessment "id-1" sampleStore =
      (Except.ok sampleAssessment, Store.remove sampleStore "id-1") ∧
     getEnergyAssessment "id-1" (Store.remove sampleStore "id-1") =
       Except.error ("Energy Assessment with ID=" ++ "id-1" ++ " not found.")) ∧
    deleteEnergyAssessment "id-x" sampleStore =
      (Except.error ("Energy Assessment with ID=" ++ "id-x" ++ " not found."),
       sampleStore) :=
  ⟨(delete_spec "id-1" sampleStore (by decide)).1 sampleAssessment (by decide),
   (delete_spec "id-x" sampleStore (by decide)).2 (by decide)⟩

/-- C10: a successful `addEnergyUsage` changes only the usage history:
every other field, `updatedAt` included, is stored unchanged. -/
theorem addUsage_frame (id : String) (d : Nat) (c : Int) (s : Store)
    (a : EnergyAssessment) (hid : id ≠ "") (h : Store.get s id = some a) :
    ∃ a',
      addEnergyUsage id d c s = (Except.ok a', Store.insert s id a') ∧
      a'.id = a.id ∧ a'.homeOwner = a.homeOwner ∧ a'.address = a.address ∧
      a'.assessmentDate = a.assessmentDate ∧
      a'.efficiencyRating = a.efficiencyRating ∧
      a'.recommendations = a.recommendations ∧
      a'.costSavings = a.costSavings ∧
      a'.createdAt = a.createdAt ∧ a'.updatedAt = a.updatedAt ∧
      a'.energyUsageHistory = a.energyUsageHistory ++ [⟨d, c⟩] :=
  ⟨_, addEnergyUsage_step id d c s a hid h,
    rfl, rfl, rfl, rfl, rfl, rfl, rfl, rfl, rfl, rfl⟩

/-- Witness for C10: append the reading (100, 30) to the sample
record. -/
theorem addUsage_frame_witness :
    ∃ a',
      addEnergyUsage "id-1" 100 30 sampleStore =
        (Except.ok a', Store.insert sampleStore "id-1" a') ∧
      a'.id = sampleAssessment.id ∧
      a'.homeOwner = sampleAssessment.homeOwner ∧
      a'.address = sampleAssessment.address ∧
      a'.assessmentDate = sampleAssessment.assessmentDate ∧
      a'.efficiencyRating = sampleAssessment.efficiencyRating ∧
      a'.recommendations = sampleAssessment.recommendations ∧
      a'.costSavings = sampleAssessment.costSavings ∧
      a'.createdAt = sampleAssessment.createdAt ∧
      a'.updatedAt = sampleAssessment.updatedAt ∧
      a'.energyUsageHistory =
        sampleAssessment.energyUsageHistory ++ [⟨100, 30⟩] :=
  addUsage_frame "id-1" 100 30 sampleStore sampleAssessment (by decide)
    (by decide)

/-- C6: a sequence of successful `addEnergyUsage` calls on one existing
id appends the readings in call order: afterwards the stored history,
and `getEnergyUsageHistory`, equal the prior history followed by the
appended readings. -/
theorem usage_sequence (id : String) (rs : List EnergyUsageData)
    (s : Store) (a : EnergyAssessment) (hid : id ≠ "")
    (h : Store.get s id = some a) :
    ∃ a',
      Store.get (applyUsages id rs s) id = some a' ∧
      a'.energyUsageHistory = a.energyUsageHistory ++ rs ∧
      getEnergyUsageHistory id (applyUsages id rs s) =
        Except.ok (a.energyUsageHistory ++ rs) := by
  induction rs generalizing s a with
  | nil =>
      refine ⟨a, h, by simp [applyUsages], ?_⟩
      simp [applyUsages, getEnergyUsageHistory, hid, h]
  | cons r rs ih =>
      obtain ⟨d, c⟩ := r
      have hstep := addEnergyUsage_step id d c s a hid h
      have happly : applyUsages id (⟨d, c⟩ :: rs) s =
          applyUsages id rs ((addEnergyUsage id d c s).2) := rfl
      have h2 : (addEnergyUsage id d c s).2 = Store.insert s id
          { a with energyUsageHistory := a.energyUsageHistory ++ [⟨d, c⟩] } := by
        rw [hstep]
      have hget := Store.get_insert_self s id
        { a with energyUsageHistory := a.energyUsageHistory ++ [⟨d, c⟩] }
      obtain ⟨a', hga, hhist, hret⟩ := ih _ _ hget
      rw [happly, h2]
      refine ⟨a', hga, ?_, ?_⟩
      · rw [hhist]
        simp
      · rw [hret]
        simp

/-- Witness for C6: append the two readings of example scenario 3 to
the sample record. -/
theorem usage_sequence_witness :
    ∃ a',
      Store.get (applyUsages "id-1" [⟨100, 30⟩, ⟨200, 10⟩] sampleStore)
        "id-1" = some a' ∧
      a'.energyUsageHistory =
        sampleAssessment.energyUsageHistory ++ [⟨100, 30⟩, ⟨200, 10⟩] ∧
      getEnergyUsageHistory "id-1"
          (applyUsages "id-1" [⟨100, 30⟩, ⟨200, 10⟩] sampleStore) =
        Except.ok (sampleAssessment.energyUsageHistory ++
          [⟨100, 30⟩, ⟨200, 10⟩]) :=
  usage_sequence "id-1" [⟨100, 30⟩, ⟨200, 10⟩] sampleStore sampleAssessment
    (by decide) (by decide)

end HomeEnergy
